import Mathlib

/-!
Shallow embedding of `src/otk-please/main.go` (package `main`): a Slack
slash-command webhook that verifies the request signature, classifies the
command text into the Demo or Staging environment, fetches a one-time key
from that environment's token-claim endpoint, and renders the token as a
plain-text chat response.

The third-party collaborators (the Slack signature verifier, the Slack
slash-command form parser, and the HTTP transport) are not code of this
repository; they enter the model as abstract outcomes (`VerifierEnv`,
the `parse` field, `UpstreamResponse`).  Everything that `main.go` itself
does — control flow, status codes, bodies, environment classification,
header construction, newline trimming, body restoration — is translated
line by line.
-/

namespace OtkPlease

/-- `demoAddress` constant, main.go line 27. -/
def demoAddress : String :=
  "https://submission.covid-alert-demo.cdssandbox.xyz/new-key-claim"

/-- `stagingAddress` constant, main.go line 28. -/
def stagingAddress : String :=
  "https://submission.wild-samphire.cdssandbox.xyz/new-key-claim"

/-- Go `strings.HasSuffix s suffix` on the character sequences of the
strings (for valid UTF-8, Go's byte-level suffix test of a valid UTF-8
suffix coincides with the character-level test). -/
def goHasSuffix (s suffix : String) : Bool :=
  suffix.data.isSuffixOf s.data

/-- Go `strings.TrimSuffix s suffix`: if `suffix` is a suffix of `s`,
return `s` without that final occurrence, otherwise return `s`
unchanged (main.go line 79 calls it with suffix `"\n"`). -/
def goTrimSuffix (s suffix : String) : String :=
  if goHasSuffix s suffix then
    String.mk (s.data.take (s.data.length - suffix.data.length))
  else s

/-- The observable outcome of the single outbound HTTP exchange performed
by `getToken`: whether `client.Do` failed (connection error), the
response status code, whether `ioutil.ReadAll(res.Body)` failed, and the
response body text. -/
structure UpstreamResponse where
  connectError : Bool
  status : Nat
  readError : Bool
  body : String

/-- The outbound request that `getToken` builds: `http.NewRequest("POST",
address, nil)` plus the `Authorization` header added on main.go line 65. -/
structure OutboundRequest where
  method : String
  url : String
  authorization : String
deriving DecidableEq, Repr

/-- `getToken` (main.go lines 58–80).  Builds a POST request to `address`
with header `Authorization: Bearer <bearerToken>`; fails if the connection
fails or the body read fails; otherwise returns the body with a single
trailing newline trimmed.  The response status code is never consulted by
the source, so it is unused here.  The second component records the
request that was issued. -/
def getToken (bearerToken address : String) (up : UpstreamResponse) :
    Except Unit String × OutboundRequest :=
  let req : OutboundRequest :=
    { method := "POST", url := address,
      authorization := "Bearer " ++ bearerToken }
  if up.connectError then (Except.error (), req)
  else if up.readError then (Except.error (), req)
  else (Except.ok (goTrimSuffix up.body "\n"), req)

/-- The inbound `*http.Request` as far as main.go observes it: the
consumable byte stream `req.Body`. -/
structure GoRequest where
  bodyStream : List UInt8
deriving DecidableEq

/-- `ioutil.ReadAll(req.Body)` (main.go line 37): yields every remaining
byte and leaves the stream exhausted. -/
def readAll (r : GoRequest) : List UInt8 × GoRequest :=
  (r.bodyStream, { bodyStream := [] })

/-- Abstract outcome of the `slack-go` signature-verification collaborator
for one request: whether `slack.NewSecretsVerifier` accepts the headers and
secret, whether the body read fails, whether `secretVerifier.Write` fails,
and whether `secretVerifier.Ensure` finds the signature correct. -/
structure VerifierEnv where
  newVerifierOk : Bool
  bodyReadError : Bool
  writeError : Bool
  signatureMatches : Bool
deriving DecidableEq

/-- `verifyRequest` (main.go lines 31–56).  On the happy path it reads the
whole body, immediately resets `req.Body` to a fresh buffer holding the
same bytes (line 43), then hashes and compares.  Early errors return
before the reset.  Returns the verification result together with the
request as left for the next stage. -/
def verifyRequest (r : GoRequest) (v : VerifierEnv) :
    Except Unit Unit × GoRequest :=
  if v.newVerifierOk = false then (Except.error (), r)
  else if v.bodyReadError then (Except.error (), (readAll r).2)
  else
    let (body, r1) := readAll r
    let r2 : GoRequest := { r1 with bodyStream := body }
    if v.writeError then (Except.error (), r2)
    else if v.signatureMatches then (Except.ok (), r2)
    else (Except.error (), r2)

/-- The slash command as far as the handler uses it: `s.Text`
(main.go line 100). -/
structure SlashCommand where
  text : String

/-- Case-insensitive substring test on character lists: does `pat` occur
as a contiguous sublist of `l`? -/
def containsSub : List Char → List Char → Bool
  | [], pat => pat.isPrefixOf ([] : List Char)
  | l@(_ :: t), pat => pat.isPrefixOf l || containsSub t pat

/-- The case folding Go's `regexp` applies under `(?i)`: two characters
match when they lie in the same `unicode.SimpleFold` orbit.  This
canonicalises each character of a fold orbit containing an ASCII letter
to that letter: the ASCII pairs `{X, x}`, plus the two non-ASCII orbit
members `ſ` (U+017F, in the orbit of `s`) and the Kelvin sign (U+212A,
in the orbit of `k`).  No other character folds to an ASCII letter, so
for patterns made of ASCII letters — here `"demo"` and `"staging"` —
equality after `goFold` coincides exactly with Go's folded-rune match. -/
def goFold (c : Char) : Char :=
  if c = 'ſ' then 's'
  else if c = 'K' then 'k'
  else c.toLower

/-- Go `regexp.MustCompile("(?i)" + pattern).MatchString text` for the
literal ASCII patterns `"demo"` and `"staging"` (main.go lines 101–102):
substring search comparing characters up to Unicode simple case
folding. -/
def matchCI (pattern text : String) : Bool :=
  containsSub (text.data.map goFold) (pattern.data.map goFold)

/-- The guidance message written on main.go line 113. -/
def guidanceText : String := "Please enter either *demo* or *staging*"

/-- Everything one invocation of `handler` can observe: the inbound
request, the signature-verifier outcome, the `slack.SlashCommandParse`
collaborator as a function of the body bytes it reads, the `DEMO` and
`STAGING` environment variables (empty string when unset, as
`os.Getenv`), and the upstream token API's behaviour per address. -/
structure HandlerInput where
  request : GoRequest
  verifier : VerifierEnv
  parse : List UInt8 → Option SlashCommand
  demoSecret : String
  stagingSecret : String
  upstream : String → UpstreamResponse

/-- The HTTP response written by `handler`, together with an effect trace:
`parsedBytes` is the byte sequence handed to `slack.SlashCommandParse`
(`none` when parsing was never reached), and `fetched` lists the outbound
token requests issued. -/
structure HandlerResult where
  status : Nat
  body : String
  parsedBytes : Option (List UInt8)
  fetched : List OutboundRequest
deriving DecidableEq

/-- Final part of `handler` (main.go lines 117–124): call `getToken`; on
error write status 500 with empty body, on success write
`"<environment> token: <token>"` with the implicit status 200. -/
def finishFetch (environment bearerToken address : String)
    (pb : List UInt8) (input : HandlerInput) : HandlerResult :=
  let res := getToken bearerToken address (input.upstream address)
  match res.1 with
  | Except.error _ =>
      { status := 500, body := "", parsedBytes := some pb,
        fetched := [res.2] }
  | Except.ok token =>
      { status := 200, body := environment ++ " token: " ++ token,
        parsedBytes := some pb, fetched := [res.2] }

/-- `handler` (main.go lines 82–124).  Verification failure: status 401,
nothing else happens.  Parse failure: status 500.  Then the text is
classified — `demo` first, `staging` second — selecting the bearer secret,
address and display name; no match writes the guidance text with the
implicit status 200 and no fetch. -/
def handler (input : HandlerInput) : HandlerResult :=
  let vr := verifyRequest input.request input.verifier
  match vr.1 with
  | Except.error _ =>
      { status := 401, body := "", parsedBytes := none, fetched := [] }
  | Except.ok _ =>
      let req1 := vr.2
      match input.parse req1.bodyStream with
      | none =>
          { status := 500, body := "", parsedBytes := some req1.bodyStream,
            fetched := [] }
      | some s =>
          let text := s.text
          if matchCI "demo" text then
            finishFetch "Demo" input.demoSecret demoAddress
              req1.bodyStream input
          else if matchCI "staging" text then
            finishFetch "Staging" input.stagingSecret stagingAddress
              req1.bodyStream input
          else
            { status := 200, body := guidanceText,
              parsedBytes := some req1.bodyStream, fetched := [] }

/-! ### Basic lemmas about the embedded operations -/

/-- The outbound request built by `getToken` does not depend on the
upstream's behaviour: it is always a POST to `address` carrying
`Authorization: Bearer <bearerToken>`. -/
theorem getToken_snd (bearerToken address : String) (up : UpstreamResponse) :
    (getToken bearerToken address up).2 =
      { method := "POST", url := address,
        authorization := "Bearer " ++ bearerToken } := by
  simp only [getToken]
  split
  · rfl
  · split <;> rfl

/-- `getToken` succeeds whenever the connection and the body read succeed,
whatever the status code, returning the trimmed body. -/
theorem getToken_ok (bearerToken address : String) (up : UpstreamResponse)
    (h1 : up.connectError = false) (h2 : up.readError = false) :
    (getToken bearerToken address up).1 =
      Except.ok (goTrimSuffix up.body "\n") := by
  simp [getToken, h1, h2]

/-- `getToken` fails exactly when the connection or the body read fails. -/
theorem getToken_err (bearerToken address : String) (up : UpstreamResponse)
    (h : up.connectError = true ∨ up.readError = true) :
    (getToken bearerToken address up).1 = Except.error () := by
  cases hc : up.connectError with
  | true => simp [getToken, hc]
  | false =>
      rcases h with h | h
      · rw [hc] at h; exact absurd h (by simp)
      · simp [getToken, hc, h]

/-- On the happy path `verifyRequest` succeeds and hands back the request
with its body stream intact. -/
theorem verifyRequest_ok (r : GoRequest) (v : VerifierEnv)
    (h1 : v.newVerifierOk = true) (h2 : v.bodyReadError = false)
    (h3 : v.writeError = false) (h4 : v.signatureMatches = true) :
    verifyRequest r v = (Except.ok (), r) := by
  cases r
  simp [verifyRequest, readAll, h1, h2, h3, h4]

/-- As soon as the body was successfully read (whatever `Write` and
`Ensure` then do), the request handed back by `verifyRequest` carries the
original body bytes: line 43 of main.go resets the stream before hashing. -/
theorem verifyRequest_restores (r : GoRequest) (v : VerifierEnv)
    (h1 : v.newVerifierOk = true) (h2 : v.bodyReadError = false) :
    (verifyRequest r v).2.bodyStream = r.bodyStream := by
  simp only [verifyRequest, readAll, h1, h2, Bool.false_eq_true, if_false]
  split
  · rfl
  · split
    · rfl
    · split <;> rfl

/-- `finishFetch` on a failed fetch: status 500, empty body, the one
outbound request recorded. -/
theorem finishFetch_err (environment bearerToken address : String)
    (pb : List UInt8) (input : HandlerInput)
    (h : (input.upstream address).connectError = true ∨
      (input.upstream address).readError = true) :
    finishFetch environment bearerToken address pb input =
      { status := 500, body := "", parsedBytes := some pb,
        fetched := [{ method := "POST", url := address,
                      authorization := "Bearer " ++ bearerToken }] } := by
  simp only [finishFetch, getToken_err _ _ _ h, getToken_snd]

/-- `finishFetch` on a successful fetch: status 200 and the formatted
token message. -/
theorem finishFetch_ok (environment bearerToken address : String)
    (pb : List UInt8) (input : HandlerInput)
    (h1 : (input.upstream address).connectError = false)
    (h2 : (input.upstream address).readError = false) :
    finishFetch environment bearerToken address pb input =
      { status := 200,
        body := environment ++ " token: " ++
          goTrimSuffix (input.upstream address).body "\n",
        parsedBytes := some pb,
        fetched := [{ method := "POST", url := address,
                      authorization := "Bearer " ++ bearerToken }] } := by
  simp only [finishFetch, getToken_ok _ _ _ h1 h2, getToken_snd]

/-- Whatever the fetch outcome, `finishFetch` issues exactly one outbound
request, to `address` with the bearer header. -/
theorem finishFetch_fetched (environment bearerToken address : String)
    (pb : List UInt8) (input : HandlerInput) :
    (finishFetch environment bearerToken address pb input).fetched =
      [{ method := "POST", url := address,
         authorization := "Bearer " ++ bearerToken }] := by
  simp only [finishFetch]
  split <;> simp [getToken_snd]

/-- Whatever the fetch outcome, `finishFetch` reports the parse bytes it
was given. -/
theorem finishFetch_parsedBytes (environment bearerToken address : String)
    (pb : List UInt8) (input : HandlerInput) :
    (finishFetch environment bearerToken address pb input).parsedBytes =
      some pb := by
  simp only [finishFetch]
  split <;> rfl

/-- Verification failure short-circuits the handler: status 401, empty
body, no parse, no fetch (main.go lines 83–86). -/
theorem handler_unauthorized (input : HandlerInput)
    (hv : (verifyRequest input.request input.verifier).1 =
      Except.error ()) :
    handler input =
      { status := 401, body := "", parsedBytes := none, fetched := [] } := by
  simp only [handler, hv]

/-- On a verified request whose text matches `demo`, the handler runs the
fetch against the demo environment. -/
theorem handler_demo (input : HandlerInput) (s : SlashCommand)
    (h1 : input.verifier.newVerifierOk = true)
    (h2 : input.verifier.bodyReadError = false)
    (h3 : input.verifier.writeError = false)
    (h4 : input.verifier.signatureMatches = true)
    (hp : input.parse input.request.bodyStream = some s)
    (hd : matchCI "demo" s.text = true) :
    handler input =
      finishFetch "Demo" input.demoSecret demoAddress
        input.request.bodyStream input := by
  simp only [handler, verifyRequest_ok input.request input.verifier h1 h2 h3 h4,
    hp, hd, if_true]

/-- On a verified request whose text matches `staging` but not `demo`,
the handler runs the fetch against the staging environment. -/
theorem handler_staging (input : HandlerInput) (s : SlashCommand)
    (h1 : input.verifier.newVerifierOk = true)
    (h2 : input.verifier.bodyReadError = false)
    (h3 : input.verifier.writeError = false)
    (h4 : input.verifier.signatureMatches = true)
    (hp : input.parse input.request.bodyStream = some s)
    (hd : matchCI "demo" s.text = false)
    (hs : matchCI "staging" s.text = true) :
    handler input =
      finishFetch "Staging" input.stagingSecret stagingAddress
        input.request.bodyStream input := by
  simp only [handler, verifyRequest_ok input.request input.verifier h1 h2 h3 h4,
    hp, hd, hs, if_true, if_false, Bool.false_eq_true]

/-- On a verified request whose text matches neither substring, the
handler writes the guidance message and fetches nothing. -/
theorem handler_nomatch (input : HandlerInput) (s : SlashCommand)
    (h1 : input.verifier.newVerifierOk = true)
    (h2 : input.verifier.bodyReadError = false)
    (h3 : input.verifier.writeError = false)
    (h4 : input.verifier.signatureMatches = true)
    (hp : input.parse input.request.bodyStream = some s)
    (hd : matchCI "demo" s.text = false)
    (hs : matchCI "staging" s.text = false) :
    handler input =
      { status := 200, body := guidanceText,
        parsedBytes := some input.request.bodyStream, fetched := [] } := by
  simp only [handler, verifyRequest_ok input.request input.verifier h1 h2 h3 h4,
    hp, hd, hs, if_false, Bool.false_eq_true]

/-- Folding the string literals of the success message. -/
theorem demo_label (t : String) :
    "Demo" ++ " token: " ++ t = "Demo token: " ++ t := rfl

/-- Folding the string literals of the success message. -/
theorem staging_label (t : String) :
    "Staging" ++ " token: " ++ t = "Staging token: " ++ t := rfl

/-- When the body ends in a newline, trimming removes exactly that one
final newline: appending it back restores the original. -/
theorem goTrimSuffix_append_newline (s : String)
    (h : goHasSuffix s "\n" = true) :
    goTrimSuffix s "\n" ++ "\n" = s := by
  obtain ⟨p, hp⟩ : ("\n" : String).data <:+ s.data :=
    List.isSuffixOf_iff_suffix.mp h
  have hlen : s.data.length - ("\n" : String).data.length = p.length := by
    rw [← hp]; simp
  apply String.ext
  rw [String.data_append]
  simp only [goTrimSuffix, h, if_true]
  rw [hlen, ← hp, List.take_left]

/-- When the body does not end in a newline, trimming is the identity. -/
theorem goTrimSuffix_no_newline (s : String)
    (h : goHasSuffix s "\n" = false) :
    goTrimSuffix s "\n" = s := by
  simp [goTrimSuffix, h]

/-- On a verified request whose payload fails to parse as a slash
command, the handler answers 500 with an empty body and fetches nothing
(main.go lines 88–92). -/
theorem handler_parse_failed (input : HandlerInput)
    (h1 : input.verifier.newVerifierOk = true)
    (h2 : input.verifier.bodyReadError = false)
    (h3 : input.verifier.writeError = false)
    (h4 : input.verifier.signatureMatches = true)
    (hp : input.parse input.request.bodyStream = none) :
    handler input =
      { status := 500, body := "", parsedBytes := some input.request.bodyStream,
        fetched := [] } := by
  simp only [handler, verifyRequest_ok input.request input.verifier h1 h2 h3 h4,
    hp]

/-- The Unicode fold behaviour of Go's `(?i)staging` that ASCII-only
folding would miss: the long s `ſ` (U+017F) matches `s`, so `"ſtaging"`
resolves to Staging, not to the guidance branch. -/
theorem matchCI_long_s :
    matchCI "staging" "ſtaging" = true ∧
    matchCI "demo" "ſtaging" = false := by
  decide

/-! ### Claims -/

/-- A verified request saying `demo` whose upstream answers HTTP 500 with
body `"oops"` and no transport error. -/
def upstream500In : HandlerInput :=
  { request := { bodyStream := [116] }
    verifier :=
      { newVerifierOk := true, bodyReadError := false,
        writeError := false, signatureMatches := true }
    parse := fun _ => some { text := "demo" }
    demoSecret := "dsec"
    stagingSecret := "ssec"
    upstream := fun _ =>
      { connectError := false, status := 500, readError := false,
        body := "oops" } }

/-- C1, counterexample: with the upstream answering HTTP status 500 and
body `"oops"`, the handler responds 200 — not 500 with an empty body —
and renders the upstream body as a token, because `getToken` never
inspects the response status code. -/
theorem claim1_counterexample :
    (handler upstream500In).status = 200 ∧
    (handler upstream500In).body = "Demo token: oops" ∧
    ¬((handler upstream500In).status = 500 ∧
      (handler upstream500In).body = "") := by
  decide

/-- C1, amended: for every valid signed request that resolves to an
environment — Demo when the text matches `demo`, Staging when it matches
`staging` and not `demo` — the token fetch fails, and the handler
responds 500 with an empty body, exactly on a connection or body-read
failure; a non-success upstream HTTP status is not detected, and whenever
the body is readable the handler responds 200 and renders the (trimmed)
upstream body as the token, whatever the status code was. -/
theorem claim1_status_ignored (input : HandlerInput) (s : SlashCommand)
    (h1 : input.verifier.newVerifierOk = true)
    (h2 : input.verifier.bodyReadError = false)
    (h3 : input.verifier.writeError = false)
    (h4 : input.verifier.signatureMatches = true)
    (hp : input.parse input.request.bodyStream = some s) :
    (matchCI "demo" s.text = true →
      ((input.upstream demoAddress).connectError = true ∨
          (input.upstream demoAddress).readError = true →
        (handler input).status = 500 ∧ (handler input).body = "") ∧
      ((input.upstream demoAddress).connectError = false →
        (input.upstream demoAddress).readError = false →
        (handler input).status = 200 ∧
        (handler input).body =
          "Demo token: " ++
            goTrimSuffix (input.upstream demoAddress).body "\n")) ∧
    (matchCI "demo" s.text = false → matchCI "staging" s.text = true →
      ((input.upstream stagingAddress).connectError = true ∨
          (input.upstream stagingAddress).readError = true →
        (handler input).status = 500 ∧ (handler input).body = "") ∧
      ((input.upstream stagingAddress).connectError = false →
        (input.upstream stagingAddress).readError = false →
        (handler input).status = 200 ∧
        (handler input).body =
          "Staging token: " ++
            goTrimSuffix (input.upstream stagingAddress).body "\n")) := by
  constructor
  · intro hd
    constructor
    · intro h
      rw [handler_demo input s h1 h2 h3 h4 hp hd,
        finishFetch_err _ _ _ _ _ h]
      exact ⟨rfl, rfl⟩
    · intro hc hr
      rw [handler_demo input s h1 h2 h3 h4 hp hd,
        finishFetch_ok _ _ _ _ _ hc hr]
      exact ⟨rfl, demo_label _⟩
  · intro hd hs
    constructor
    · intro h
      rw [handler_staging input s h1 h2 h3 h4 hp hd hs,
        finishFetch_err _ _ _ _ _ h]
      exact ⟨rfl, rfl⟩
    · intro hc hr
      rw [handler_staging input s h1 h2 h3 h4 hp hd hs,
        finishFetch_ok _ _ _ _ _ hc hr]
      exact ⟨rfl, staging_label _⟩

/-- The same request with the upstream connection failing. -/
def upstreamDownIn : HandlerInput :=
  { upstream500In with
    upstream := fun _ =>
      { connectError := true, status := 0, readError := false,
        body := "" } }

/-- The same setup resolving to Staging (text `"staging"`) with the
upstream connection failing. -/
def stagingDownIn : HandlerInput :=
  { upstream500In with
    parse := fun _ => some { text := "staging" }
    upstream := fun _ =>
      { connectError := true, status := 0, readError := false,
        body := "" } }

/-- C1, witness: on a connection failure the handler does answer 500 with
an empty body, both for a Demo-resolving and for a Staging-resolving
request. -/
theorem claim1_witness :
    ((handler upstreamDownIn).status = 500 ∧
      (handler upstreamDownIn).body = "") ∧
    ((handler stagingDownIn).status = 500 ∧
      (handler stagingDownIn).body = "") :=
  ⟨((claim1_status_ignored upstreamDownIn { text := "demo" }
      rfl rfl rfl rfl rfl).1 (by decide)).1 (Or.inl rfl),
    ((claim1_status_ignored stagingDownIn { text := "staging" }
      rfl rfl rfl rfl rfl).2 (by decide) (by decide)).1 (Or.inl rfl)⟩

/-- C2: a valid signed request whose text contains `demo` (any letter
case, any position) resolves to the Demo environment: the single
outbound fetch is a POST to the demo token-claim endpoint bearing the
`DEMO` secret, and on success the response body names the environment
`Demo`. -/
theorem claim2_demo_resolution (input : HandlerInput) (s : SlashCommand)
    (h1 : input.verifier.newVerifierOk = true)
    (h2 : input.verifier.bodyReadError = false)
    (h3 : input.verifier.writeError = false)
    (h4 : input.verifier.signatureMatches = true)
    (hp : input.parse input.request.bodyStream = some s)
    (hd : matchCI "demo" s.text = true) :
    (handler input).fetched =
      [{ method := "POST", url := demoAddress,
         authorization := "Bearer " ++ input.demoSecret }] ∧
    ((input.upstream demoAddress).connectError = false →
      (input.upstream demoAddress).readError = false →
      (handler input).body =
        "Demo token: " ++ goTrimSuffix (input.upstream demoAddress).body "\n") := by
  constructor
  · rw [handler_demo input s h1 h2 h3 h4 hp hd, finishFetch_fetched]
  · intro hc hr
    rw [handler_demo input s h1 h2 h3 h4 hp hd,
      finishFetch_ok _ _ _ _ _ hc hr]
    exact demo_label _

/-- A valid signed request with text `"please use DEMO now"`. -/
def demoUpperIn : HandlerInput :=
  { request := { bodyStream := [116] }
    verifier :=
      { newVerifierOk := true, bodyReadError := false,
        writeError := false, signatureMatches := true }
    parse := fun _ => some { text := "please use DEMO now" }
    demoSecret := "dsec"
    stagingSecret := "ssec"
    upstream := fun _ =>
      { connectError := false, status := 200, readError := false,
        body := "tok\n" } }

/-- C2, witness: text `"please use DEMO now"` (upper case, mid-sentence)
fetches from the demo endpoint with the `DEMO` secret and renders a
`Demo` response. -/
theorem claim2_witness :
    (handler demoUpperIn).fetched =
      [{ method := "POST", url := demoAddress,
         authorization := "Bearer dsec" }] ∧
    (handler demoUpperIn).body = "Demo token: tok" := by
  have h := claim2_demo_resolution demoUpperIn
    { text := "please use DEMO now" } rfl rfl rfl rfl rfl (by decide)
  exact ⟨h.1, by rw [h.2 rfl rfl]; decide⟩

/-- C3: a valid signed request whose text contains `staging` resolves to
the Staging environment when `demo` is absent — fetching from the staging
endpoint with the `STAGING` secret and naming the environment `Staging`
on success — while a text containing both substrings resolves to Demo,
because the `demo` test comes first. -/
theorem claim3_staging_resolution (input : HandlerInput) (s : SlashCommand)
    (h1 : input.verifier.newVerifierOk = true)
    (h2 : input.verifier.bodyReadError = false)
    (h3 : input.verifier.writeError = false)
    (h4 : input.verifier.signatureMatches = true)
    (hp : input.parse input.request.bodyStream = some s)
    (hs : matchCI "staging" s.text = true) :
    (matchCI "demo" s.text = false →
      (handler input).fetched =
        [{ method := "POST", url := stagingAddress,
           authorization := "Bearer " ++ input.stagingSecret }] ∧
      ((input.upstream stagingAddress).connectError = false →
        (input.upstream stagingAddress).readError = false →
        (handler input).body =
          "Staging token: " ++
            goTrimSuffix (input.upstream stagingAddress).body "\n")) ∧
    (matchCI "demo" s.text = true →
      (handler input).fetched =
        [{ method := "POST", url := demoAddress,
           authorization := "Bearer " ++ input.demoSecret }]) := by
  constructor
  · intro hd
    constructor
    · rw [handler_staging input s h1 h2 h3 h4 hp hd hs, finishFetch_fetched]
    · intro hc hr
      rw [handler_staging input s h1 h2 h3 h4 hp hd hs,
        finishFetch_ok _ _ _ _ _ hc hr]
      exact staging_label _
  · intro hd
    rw [handler_demo input s h1 h2 h3 h4 hp hd, finishFetch_fetched]

/-- A valid signed request with text `"use STAGING please"`. -/
def stagingOnlyIn : HandlerInput :=
  { request := { bodyStream := [116] }
    verifier :=
      { newVerifierOk := true, bodyReadError := false,
        writeError := false, signatureMatches := true }
    parse := fun _ => some { text := "use STAGING please" }
    demoSecret := "dsec"
    stagingSecret := "ssec"
    upstream := fun _ =>
      { connectError := false, status := 200, readError := false,
        body := "xyz\n" } }

/-- The same request with text `"demolition staging"`, containing both
substrings. -/
def bothWordsIn : HandlerInput :=
  { stagingOnlyIn with
    parse := fun _ => some { text := "demolition staging" } }

/-- C3, witness: `"use STAGING please"` fetches from the staging
endpoint; `"demolition staging"` contains both substrings and fetches
from the demo endpoint. -/
theorem claim3_witness :
    (handler stagingOnlyIn).fetched =
      [{ method := "POST", url := stagingAddress,
         authorization := "Bearer ssec" }] ∧
    (handler bothWordsIn).fetched =
      [{ method := "POST", url := demoAddress,
         authorization := "Bearer dsec" }] := by
  constructor
  · exact ((claim3_staging_resolution stagingOnlyIn
      { text := "use STAGING please" } rfl rfl rfl rfl rfl
      (by decide)).1 (by decide)).1
  · exact (claim3_staging_resolution bothWordsIn
      { text := "demolition staging" } rfl rfl rfl rfl rfl
      (by decide)).2 (by decide)

/-- C4: a valid signed request whose text contains neither `demo` nor
`staging` gets status 200 with exactly the guidance text, and no outbound
fetch is performed. -/
theorem claim4_guidance (input : HandlerInput) (s : SlashCommand)
    (h1 : input.verifier.newVerifierOk = true)
    (h2 : input.verifier.bodyReadError = false)
    (h3 : input.verifier.writeError = false)
    (h4 : input.verifier.signatureMatches = true)
    (hp : input.parse input.request.bodyStream = some s)
    (hd : matchCI "demo" s.text = false)
    (hs : matchCI "staging" s.text = false) :
    handler input =
      { status := 200, body := "Please enter either *demo* or *staging*",
        parsedBytes := some input.request.bodyStream, fetched := [] } :=
  handler_nomatch input s h1 h2 h3 h4 hp hd hs

/-- A valid signed request with text `"hello production"`. -/
def noMatchIn : HandlerInput :=
  { request := { bodyStream := [104, 105] }
    verifier :=
      { newVerifierOk := true, bodyReadError := false,
        writeError := false, signatureMatches := true }
    parse := fun _ => some { text := "hello production" }
    demoSecret := "dsec"
    stagingSecret := "ssec"
    upstream := fun _ =>
      { connectError := false, status := 200, readError := false,
        body := "tok\n" } }

/-- C4, witness: `"hello production"` matches neither substring and gets
the guidance message. -/
theorem claim4_witness :
    handler noMatchIn =
      { status := 200, body := "Please enter either *demo* or *staging*",
        parsedBytes := some [104, 105], fetched := [] } :=
  claim4_guidance noMatchIn { text := "hello production" }
    rfl rfl rfl rfl rfl (by decide) (by decide)

/-- C5: whenever signature verification fails — malformed headers or
missing secret (`NewSecretsVerifier`), body-read failure, hashing
failure, or signature mismatch (`Ensure`) — the handler answers 401 with
an empty body, never reaches the slash-command parse, and issues no
outbound fetch. -/
theorem claim5_unauthorized (input : HandlerInput)
    (hv : (verifyRequest input.request input.verifier).1 =
      Except.error ()) :
    handler input =
      { status := 401, body := "", parsedBytes := none, fetched := [] } :=
  handler_unauthorized input hv

/-- A request whose signature does not match. -/
def badSignatureIn : HandlerInput :=
  { request := { bodyStream := [116] }
    verifier :=
      { newVerifierOk := true, bodyReadError := false,
        writeError := false, signatureMatches := false }
    parse := fun _ => some { text := "demo" }
    demoSecret := "dsec"
    stagingSecret := "ssec"
    upstream := fun _ =>
      { connectError := false, status := 200, readError := false,
        body := "tok\n" } }

/-- C5, witness: a mismatched signature yields 401, empty body, no parse,
no fetch — even though the text said `demo`. -/
theorem claim5_witness :
    handler badSignatureIn =
      { status := 401, body := "", parsedBytes := none, fetched := [] } :=
  claim5_unauthorized badSignatureIn rfl

/-- C6: a valid signed request that resolves to an environment and whose
token fetch succeeds gets status 200 and a body of exactly
`"<EnvironmentDisplayName> token: <token>"`. -/
theorem claim6_success_body (input : HandlerInput) (s : SlashCommand)
    (h1 : input.verifier.newVerifierOk = true)
    (h2 : input.verifier.bodyReadError = false)
    (h3 : input.verifier.writeError = false)
    (h4 : input.verifier.signatureMatches = true)
    (hp : input.parse input.request.bodyStream = some s) :
    (matchCI "demo" s.text = true →
      (input.upstream demoAddress).connectError = false →
      (input.upstream demoAddress).readError = false →
      handler input =
        { status := 200,
          body := "Demo token: " ++
            goTrimSuffix (input.upstream demoAddress).body "\n",
          parsedBytes := some input.request.bodyStream,
          fetched := [{ method := "POST", url := demoAddress,
                        authorization := "Bearer " ++ input.demoSecret }] }) ∧
    (matchCI "demo" s.text = false → matchCI "staging" s.text = true →
      (input.upstream stagingAddress).connectError = false →
      (input.upstream stagingAddress).readError = false →
      handler input =
        { status := 200,
          body := "Staging token: " ++
            goTrimSuffix (input.upstream stagingAddress).body "\n",
          parsedBytes := some input.request.bodyStream,
          fetched := [{ method := "POST", url := stagingAddress,
                        authorization := "Bearer " ++ input.stagingSecret }] }) := by
  constructor
  · intro hd hc hr
    rw [handler_demo input s h1 h2 h3 h4 hp hd,
      finishFetch_ok _ _ _ _ _ hc hr, demo_label]
  · intro hd hs hc hr
    rw [handler_staging input s h1 h2 h3 h4 hp hd hs,
      finishFetch_ok _ _ _ _ _ hc hr, staging_label]

/-- The spec's scenario: a valid signed request with text
`"please use demo"` and upstream body `"abc123\n"`. -/
def scenarioDemoIn : HandlerInput :=
  { request := { bodyStream := [116] }
    verifier :=
      { newVerifierOk := true, bodyReadError := false,
        writeError := false, signatureMatches := true }
    parse := fun _ => some { text := "please use demo" }
    demoSecret := "dsec"
    stagingSecret := "ssec"
    upstream := fun _ =>
      { connectError := false, status := 200, readError := false,
        body := "abc123\n" } }

/-- C6, witness: text `"please use demo"`, upstream body `"abc123\n"` →
status 200, body `"Demo token: abc123"`. -/
theorem claim6_witness :
    (handler scenarioDemoIn).status = 200 ∧
    (handler scenarioDemoIn).body = "Demo token: abc123" := by
  have h := (claim6_success_body scenarioDemoIn
    { text := "please use demo" } rfl rfl rfl rfl rfl).1 (by decide) rfl rfl
  rw [h]
  exact ⟨rfl, by decide⟩

/-- C7, counterexample: trimming is not idempotent on every already-
trimmed result: trimming `"abc\n\n"` yields `"abc\n"`, and trimming that
again yields `"abc"`, a different string. -/
theorem claim7_counterexample :
    goTrimSuffix (goTrimSuffix "abc\n\n" "\n") "\n" ≠
      goTrimSuffix "abc\n\n" "\n" := by
  decide

/-- C7, amended: the token fetcher's trimming removes exactly one
trailing `"\n"` when one is present and removes nothing otherwise; it is
idempotent on inputs without a trailing newline (but not on every
trimmed result, since a body ending in two newlines trims to one). -/
theorem claim7_trim_amended (s : String) :
    (goHasSuffix s "\n" = true → goTrimSuffix s "\n" ++ "\n" = s) ∧
    (goHasSuffix s "\n" = false → goTrimSuffix s "\n" = s) ∧
    (goHasSuffix s "\n" = false →
      goTrimSuffix (goTrimSuffix s "\n") "\n" = goTrimSuffix s "\n") := by
  refine ⟨goTrimSuffix_append_newline s, goTrimSuffix_no_newline s,
    fun h => ?_⟩
  rw [goTrimSuffix_no_newline s h]
  exact goTrimSuffix_no_newline s h

/-- C7, witness: `"abc\n"` loses exactly its final newline; `"xyz"` is
left unchanged. -/
theorem claim7_witness :
    goTrimSuffix "abc\n" "\n" ++ "\n" = "abc\n" ∧
    goTrimSuffix "xyz" "\n" = "xyz" :=
  ⟨(claim7_trim_amended "abc\n").1 (by decide),
    (claim7_trim_amended "xyz").2.1 (by decide)⟩

/-- C8: once verification has read the raw body for hashing (construction
of the verifier succeeded and the read did not fail), the request body is
restored to the same byte sequence; consequently, on the fully verified
path the slash-command parse stage reads exactly the original body
bytes. -/
theorem claim8_body_restored (input : HandlerInput)
    (h1 : input.verifier.newVerifierOk = true)
    (h2 : input.verifier.bodyReadError = false) :
    (verifyRequest input.request input.verifier).2.bodyStream =
      input.request.bodyStream ∧
    (input.verifier.writeError = false →
      input.verifier.signatureMatches = true →
      (handler input).parsedBytes = some input.request.bodyStream) := by
  refine ⟨verifyRequest_restores _ _ h1 h2, fun h3 h4 => ?_⟩
  cases hp : input.parse input.request.bodyStream with
  | none => rw [handler_parse_failed input h1 h2 h3 h4 hp]
  | some s =>
      cases hd : matchCI "demo" s.text with
      | true =>
          rw [handler_demo input s h1 h2 h3 h4 hp hd,
            finishFetch_parsedBytes]
      | false =>
          cases hs : matchCI "staging" s.text with
          | true =>
              rw [handler_staging input s h1 h2 h3 h4 hp hd hs,
                finishFetch_parsedBytes]
          | false =>
              rw [handler_nomatch input s h1 h2 h3 h4 hp hd hs]

/-- A valid signed request carrying body bytes `[102, 111, 111]`. -/
def bodyBytesIn : HandlerInput :=
  { request := { bodyStream := [102, 111, 111] }
    verifier :=
      { newVerifierOk := true, bodyReadError := false,
        writeError := false, signatureMatches := true }
    parse := fun _ => some { text := "demo" }
    demoSecret := "dsec"
    stagingSecret := "ssec"
    upstream := fun _ =>
      { connectError := false, status := 200, readError := false,
        body := "tok\n" } }

/-- C8, witness: the body bytes `[102, 111, 111]` survive verification
and are exactly what the parse stage reads. -/
theorem claim8_witness :
    (verifyRequest bodyBytesIn.request bodyBytesIn.verifier).2.bodyStream =
      bodyBytesIn.request.bodyStream ∧
    (handler bodyBytesIn).parsedBytes =
      some bodyBytesIn.request.bodyStream := by
  have h := claim8_body_restored bodyBytesIn rfl rfl
  exact ⟨h.1, h.2 rfl rfl⟩

/-- C9: when the outbound exchange has no connection or read error, the
token returned is the upstream body with one trailing `"\n"` stripped;
in particular a body `"abc\r\n"` yields `"abc\r"` — the carriage return
is kept — and not `"abc"`. -/
theorem claim9_crlf (bearerToken address : String) (st : Nat) (b : String) :
    (getToken bearerToken address
        { connectError := false, status := st, readError := false,
          body := b }).1 = Except.ok (goTrimSuffix b "\n") ∧
    goTrimSuffix "abc\r\n" "\n" = "abc\r" ∧
    goTrimSuffix "abc\r\n" "\n" ≠ "abc" :=
  ⟨rfl, by decide, by decide⟩

/-- C9, witness: a concrete no-error exchange returning body `"b\r\n"`
yields the token `"b\r"`. -/
theorem claim9_witness :
    (getToken "tok" demoAddress
        { connectError := false, status := 200, readError := false,
          body := "b\r\n" }).1 = Except.ok (goTrimSuffix "b\r\n" "\n") ∧
    goTrimSuffix "b\r\n" "\n" = "b\r" :=
  ⟨(claim9_crlf "tok" demoAddress 200 "b\r\n").1, by decide⟩

/-- C10: an unset or empty bearer secret is not detected: the handler
still issues the outbound POST, whose `Authorization` header is then the
bare `"Bearer "` with an empty credential. -/
theorem claim10_empty_bearer (input : HandlerInput) (s : SlashCommand)
    (h1 : input.verifier.newVerifierOk = true)
    (h2 : input.verifier.bodyReadError = false)
    (h3 : input.verifier.writeError = false)
    (h4 : input.verifier.signatureMatches = true)
    (hp : input.parse input.request.bodyStream = some s) :
    (matchCI "demo" s.text = true → input.demoSecret = "" →
      (handler input).fetched =
        [{ method := "POST", url := demoAddress,
           authorization := "Bearer " }]) ∧
    (matchCI "demo" s.text = false → matchCI "staging" s.text = true →
      input.stagingSecret = "" →
      (handler input).fetched =
        [{ method := "POST", url := stagingAddress,
           authorization := "Bearer " }]) := by
  constructor
  · intro hd he
    rw [handler_demo input s h1 h2 h3 h4 hp hd, finishFetch_fetched, he]
    decide
  · intro hd hs he
    rw [handler_staging input s h1 h2 h3 h4 hp hd hs, finishFetch_fetched, he]
    decide

/-- A valid signed request saying `demo` while the `DEMO` environment
variable is unset (empty string). -/
def emptySecretIn : HandlerInput :=
  { request := { bodyStream := [116] }
    verifier :=
      { newVerifierOk := true, bodyReadError := false,
        writeError := false, signatureMatches := true }
    parse := fun _ => some { text := "demo" }
    demoSecret := ""
    stagingSecret := ""
    upstream := fun _ =>
      { connectError := false, status := 200, readError := false,
        body := "tok\n" } }

/-- C10, witness: with an empty `DEMO` secret the outbound POST is still
issued, carrying `Authorization: Bearer ` with nothing after the
space. -/
theorem claim10_witness :
    (handler emptySecretIn).fetched =
      [{ method := "POST", url := demoAddress,
         authorization := "Bearer " }] :=
  (claim10_empty_bearer emptySecretIn { text := "demo" }
    rfl rfl rfl rfl rfl).1 (by decide) rfl

end OtkPlease
